import Mathlib

/- Verification development for the finprobe market-data pipeline.
   The Python sources (binary tick decoder, tick normalizer, candle
   aggregator, indicator engine, signal synthesizer) are shallowly
   embedded below; prices, volumes and indicator values are modelled
   as rationals, fallible code as Option. -/

namespace Finprobe

/-! ## Generic helpers -/

/-- Arithmetic mean of a list of rationals, `Series.mean` on a nonempty
series (on an empty list the value is irrelevant: 0/0 = 0). -/
def qmean (l : List ℚ) : ℚ := l.sum / l.length

/-- `Series.tail(n)`: the last `n` elements of a list. -/
def tailN (n : ℕ) (l : List ℚ) : List ℚ := l.drop (l.length - n)

/-- `Series.max()` on a list already stripped of missing values:
none on an empty list, otherwise the maximum. -/
def listMax : List ℚ → Option ℚ
  | [] => none
  | x :: xs => some (xs.foldl max x)

/-- Python `round` is round-half-to-even; this is its exact rational
counterpart (floats themselves are not modelled). -/
def roundHalfEven (x : ℚ) : ℤ :=
  let f : ℤ := ⌊x⌋
  let r : ℚ := x - f
  if r < 1/2 then f
  else if 1/2 < r then f + 1
  else if f % 2 = 0 then f else f + 1

/-- `round(x, 2)` as used throughout the analysis code. -/
def pyRound2 (x : ℚ) : ℚ := (roundHalfEven (x * 100) : ℚ) / 100

/-! ## TickNormalizer: timestamp-unit inference
(`calculate_indecator.py` lines 35-53 and `live_trend_analyzer.py`
lines 88-104; both blocks are identical).

A raw `exchange_timestamp` column after `pd.to_numeric(..., errors
= "coerce")` is a list of `Option ℚ` (`none` is a non-numeric entry
that became NaN and is dropped by `.dropna()`). -/

inductive TSUnit where
  | ns | us | ms | s
deriving DecidableEq, Repr

/-- The unit classification applied to the maximum numeric timestamp
(`if max_ts > 10**18 ... elif ... else`). -/
def classifyUnit (m : ℚ) : TSUnit :=
  if m > 10^18 then .ns
  else if m > 10^15 then .us
  else if m > 10^12 then .ms
  else .s

/-- `ts = pd.to_numeric(df["exchange_timestamp"], errors="coerce").dropna()`
followed by the `ts.empty` check and `max_ts = ts.max()` with the
threshold chain: the inferred unit, or `none` when no entry is numeric
(the code returns an error dict in that case). -/
def inferUnit (raw : List (Option ℚ)) : Option TSUnit :=
  (listMax (raw.filterMap id)).map classifyUnit

/-- Multiplier turning a timestamp in the given unit into nanoseconds;
`pd.to_datetime(..., unit=u)` interprets every row with this single
scale. -/
def unitFactorNs : TSUnit → ℚ
  | .ns => 1
  | .us => 1000
  | .ms => 1000000
  | .s => 1000000000

/-- The whole-column conversion: every row of the batch (numeric or
not) is converted with the one inferred unit. -/
def convertTimestamps (raw : List (Option ℚ)) : Option (List (Option ℚ)) :=
  (inferUnit raw).map fun u => raw.map (Option.map (fun t => t * unitFactorNs u))

/-! ## TickNormalizer: cumulative-volume correction
(`df["volume"].diff().fillna(0).clip(lower=0)`,
`calculate_indecator.py` line 76 / `live_trend_analyzer.py` line 118). -/

/-- Per-tick period volume from the cumulative counter: first entry 0
(diff's NaN filled with 0), then `max(0, cur - prev)`. -/
def volumeDelta (l : List ℚ) : List ℚ :=
  match l with
  | [] => []
  | _ :: _ => 0 :: List.zipWith (fun cur prev => max 0 (cur - prev)) l.tail l

/-! ## Price normalization (`test.py` `normalize_price`) -/

/-- `normalize_price(value, exchange_type)`: `None` passes through,
exchange type 13 (currency derivatives, CDE) divides by 10,000,000,
every other exchange type divides by 100. -/
def normalize_price (value : Option ℤ) (exchange_type : ℤ) : Option ℚ :=
  match value with
  | none => none
  | some v => if exchange_type = 13 then some ((v : ℚ) / 10000000) else some ((v : ℚ) / 100)

/-! ## Volume/value insights
(`calculate_indicators.py`, `TechnicalIndicators.calculate_volume_value_insights`).
Its input frame comes from `get_data`, whose resample uses
`"volume": "last"` with the comment "Volume is cumulative, take last";
the rows below therefore carry the raw cumulative counter. -/

structure VRow where
  volume : ℚ
  avg_traded_price : ℚ
  close : ℚ
deriving DecidableEq, Repr

structure VolumeInsights where
  volume : ℚ
  value : ℚ
  volume_change_pct : ℚ
  avg_volume : ℚ
  is_high_volume : Bool
  insights : List String
deriving DecidableEq, Repr

/-- `calculate_volume_value_insights(df)`: `None` when fewer than two
rows, otherwise the latest row's volume/value compared against trailing
20-row means (emoji prefixes of the insight strings omitted). -/
def calculate_volume_value_insights (df : List VRow) : Option VolumeInsights :=
  match df.reverse with
  | latest :: prev :: _ =>
    let value := latest.volume * latest.avg_traded_price
    let volume := latest.volume
    let prev_volume := prev.volume
    let volume_change_pct := if prev_volume > 0 then (volume - prev_volume) / prev_volume * 100 else 0
    let avg_volume := qmean (tailN 20 (df.map (·.volume)))
    let high_volume := volume > avg_volume * (3/2)
    let valueSeries := df.map fun r => r.volume * r.avg_traded_price
    let high_value := value > qmean (tailN 20 valueSeries) * (3/2)
    let low_value := value < qmean (tailN 20 valueSeries) * (1/2)
    let price_up := latest.close > prev.close
    let low_volume := volume < avg_volume * (7/10)
    let ins1 : List String :=
      if high_volume ∧ high_value then
        ["Strong institutional participation (High Volume + High Value)"]
      else if high_volume ∧ low_value then
        ["Low-priced stock activity (High Volume + Low Value)"]
      else []
    let ins2 : List String :=
      if price_up ∧ low_volume then
        ["Price up but volume low - move may not sustain"]
      else []
    some ⟨volume, value, pyRound2 volume_change_pct, pyRound2 avg_volume,
          high_volume, ins1 ++ ins2⟩
  | _ => none

/-! ## BinaryProtocolDecoder (`test.py`)
Bytes are naturals (each < 256 in honest inputs); `struct.unpack_from`
raises `struct.error` when the buffer is shorter than `offset + size`,
modelled as `none`.  Doubles are kept as their raw little-endian 64-bit
pattern (the parser only stores them; no claim inspects their value),
and the token's UTF-8 decoding is not modelled (the token is kept as
its raw bytes before the first null). -/

structure Reader where
  data : List ℕ
  offset : ℕ
deriving DecidableEq, Repr

/-- `struct.unpack_from` size check plus cursor advance: `n` bytes at
the current offset, failing when the buffer is too short. -/
def readBytes (n : ℕ) (r : Reader) : Option (List ℕ × Reader) :=
  if r.offset + n ≤ r.data.length then
    some ((r.data.drop r.offset).take n, ⟨r.data, r.offset + n⟩)
  else none

/-- Little-endian byte list to unsigned natural. -/
def leNat (bs : List ℕ) : ℕ := bs.foldr (fun b acc => b + 256 * acc) 0

/-- Two's-complement reinterpretation of a `bits`-wide unsigned value. -/
def toSigned (bits : ℕ) (u : ℕ) : ℤ :=
  if u < 2 ^ (bits - 1) then (u : ℤ) else (u : ℤ) - 2 ^ bits

/-- A fixed-width little-endian signed integer read (`read("<b")`,
`read("<h")`, `read("<i")`, `read("<q")`). -/
def readIntLE (n bits : ℕ) (r : Reader) : Option (ℤ × Reader) :=
  match readBytes n r with
  | some (bs, r') => some (toSigned bits (leNat bs), r')
  | none => none

def read_int8 (r : Reader) : Option (ℤ × Reader) := readIntLE 1 8 r

def read_int16 (r : Reader) : Option (ℤ × Reader) := readIntLE 2 16 r

def read_int32 (r : Reader) : Option (ℤ × Reader) := readIntLE 4 32 r

def read_int64 (r : Reader) : Option (ℤ × Reader) := readIntLE 8 64 r

/-- `read("<d")`: 8 bytes whose raw bit pattern is kept as a natural. -/
def read_double (r : Reader) : Option (ℕ × Reader) :=
  match readBytes 8 r with
  | some (bs, r') => some (leNat bs, r')
  | none => none

/-- `read_string(length)`: a Python slice never fails, the cursor
advances by `length` regardless, and the result is the bytes before the
first null. -/
def read_string (length : ℕ) (r : Reader) : List ℕ × Reader :=
  (((r.data.drop r.offset).take length).takeWhile (· != 0),
   ⟨r.data, r.offset + length⟩)

def Reader.skip (r : Reader) (n : ℕ) : Reader := ⟨r.data, r.offset + n⟩

structure DepthEntry where
  side : String
  quantity : ℤ
  price : Option ℚ
  orders : ℤ
deriving DecidableEq, Repr

/-- The QUOTE-tier fields (present for subscription modes other than 1). -/
structure QuoteFields where
  last_traded_qty : ℤ
  avg_traded_price : Option ℚ
  volume : ℤ
  total_buy_qty : ℕ
  total_sell_qty : ℕ
  open_ : Option ℚ
  high : Option ℚ
  low : Option ℚ
  close : Option ℚ
deriving DecidableEq, Repr

/-- The SNAPQUOTE-tier fields (present for modes other than 1 and 2). -/
structure SnapFields where
  last_traded_time : ℤ
  open_interest : ℤ
  oi_change_percent : ℕ
  best_five : List DepthEntry
  upper_circuit : Option ℚ
  lower_circuit : Option ℚ
  week_52_high : Option ℚ
  week_52_low : Option ℚ
deriving DecidableEq, Repr

structure MarketData where
  subscription_mode : ℤ
  exchange_type : ℤ
  token : List ℕ
  sequence_number : ℤ
  exchange_timestamp : ℤ
  ltp : Option ℚ
  quote : Option QuoteFields
  snap : Option SnapFields
deriving DecidableEq, Repr

/-- `parse_best_five`: `for _ in range(10)` over 20-byte depth entries;
the fuel argument is the remaining loop count. -/
def parse_best_five (exchange_type : ℤ) : ℕ → Reader → Option (List DepthEntry × Reader)
  | 0, r => some ([], r)
  | n + 1, r => do
    let (side_flag, r) ← read_int16 r
    let (qty, r) ← read_int64 r
    let (raw_price, r) ← read_int64 r
    let (orders, r) ← read_int16 r
    let (rest, r) ← parse_best_five exchange_type n r
    pure (⟨if side_flag = 1 then "buy" else "sell", qty,
           normalize_price (some raw_price) exchange_type, orders⟩ :: rest, r)

/-- The quote-tier reads (run for every mode other than 1). -/
def parseQuote (exchange_type : ℤ) (r : Reader) : Option (QuoteFields × Reader) := do
  let (last_traded_qty, r) ← read_int64 r
  let (raw_avg_price, r) ← read_int64 r
  let (volume, r) ← read_int64 r
  let (total_buy_qty, r) ← read_double r
  let (total_sell_qty, r) ← read_double r
  let (raw_open, r) ← read_int64 r
  let (raw_high, r) ← read_int64 r
  let (raw_low, r) ← read_int64 r
  let (raw_close, r) ← read_int64 r
  let q : QuoteFields :=
    { last_traded_qty := last_traded_qty
      avg_traded_price := normalize_price (some raw_avg_price) exchange_type
      volume := volume
      total_buy_qty := total_buy_qty
      total_sell_qty := total_sell_qty
      open_ := normalize_price (some raw_open) exchange_type
      high := normalize_price (some raw_high) exchange_type
      low := normalize_price (some raw_low) exchange_type
      close := normalize_price (some raw_close) exchange_type }
  some (q, r)

/-- The snap-quote-tier reads (run for every mode other than 1 and 2). -/
def parseSnap (exchange_type : ℤ) (r : Reader) : Option (SnapFields × Reader) := do
  let (last_traded_time, r) ← read_int64 r
  let (open_interest, r) ← read_int64 r
  let (oi_change_percent, r) ← read_double r
  let (best_five, r) ← parse_best_five exchange_type 10 r
  let (raw_upper, r) ← read_int64 r
  let (raw_lower, r) ← read_int64 r
  let (raw_52_high, r) ← read_int64 r
  let (raw_52_low, r) ← read_int64 r
  let s : SnapFields :=
    { last_traded_time := last_traded_time
      open_interest := open_interest
      oi_change_percent := oi_change_percent
      best_five := best_five
      upper_circuit := normalize_price (some raw_upper) exchange_type
      lower_circuit := normalize_price (some raw_lower) exchange_type
      week_52_high := normalize_price (some raw_52_high) exchange_type
      week_52_low := normalize_price (some raw_52_low) exchange_type }
  some (s, r)

/-- The mode dispatch at the end of `parse_market_data`: mode 1 stops
at the header, mode 2 stops after the quote block, anything else parses
the full snap-quote layout. -/
def parseAfterHeader (subscription_mode exchange_type : ℤ) (header : MarketData)
    (r : Reader) : Option MarketData :=
  if subscription_mode = 1 then
    some header
  else do
    let (quote, r) ← parseQuote exchange_type r
    if subscription_mode = 2 then
      some { header with quote := some quote }
    else do
      let (snap, _) ← parseSnap exchange_type r
      some { header with quote := some quote, snap := some snap }

/-- `parse_market_data(binary_data)`: the fixed header plus LTP, then
the subscription-mode dispatch. -/
def parse_market_data (binary_data : List ℕ) : Option MarketData := do
  let r : Reader := ⟨binary_data, 0⟩
  let (subscription_mode, r) ← read_int8 r
  let (exchange_type, r) ← read_int8 r
  let (token, r) := read_string 25 r
  let (sequence_number, r) ← read_int64 r
  let (exchange_timestamp, r) ← read_int64 r
  let (raw_ltp, r) ← read_int32 r
  let ltp := normalize_price (some raw_ltp) exchange_type
  let r := r.skip 4
  let header : MarketData :=
    { subscription_mode := subscription_mode
      exchange_type := exchange_type
      token := token
      sequence_number := sequence_number
      exchange_timestamp := exchange_timestamp
      ltp := ltp
      quote := none
      snap := none }
  parseAfterHeader subscription_mode exchange_type header r

/-- The subscription-mode byte as the parser reads it (signed int8 at
offset 0). -/
def modeByte (binary_data : List ℕ) : ℤ := toSigned 8 (leNat (binary_data.take 1))

/-- Bytes the fixed-width reads of each tier consume: 47 up to the LTP
(mode 1), 123 through the quote block (mode 2), 379 for the full
snap-quote layout (every other mode value). -/
def requiredLen (mode : ℤ) : ℕ :=
  if mode = 1 then 47 else if mode = 2 then 123 else 379

/-- Outcome of `ws_client.on_message`: non-byte payloads are ignored,
a decode (or insert) failure is caught per frame and logged, success
inserts the tick. -/
inductive MsgResult where
  | inserted (record : MarketData)
  | parseError
  | ignored
deriving DecidableEq, Repr

/-- `on_message(ws, message)`: the `try/except` around
`parse_market_data` confines a decode failure to the single frame. -/
def on_message (message : Option (List ℕ)) : MsgResult :=
  match message with
  | none => .ignored
  | some data =>
    match parse_market_data data with
    | some record => .inserted record
    | none => .parseError

/-! ## CandleAggregator, live mode (`indecator.py`, `CandleBuilder`)
`CANDLE_INTERVAL = 60` seconds; timestamps are Python ints so `//` and
`%` are floor division and nonnegative remainder (`Int.fdiv`,
`Int.emod`). -/

structure Tick where
  timestamp : ℤ
  ltp : ℚ
  volume : ℚ
deriving DecidableEq, Repr

structure Candle where
  timestamp : ℤ
  open_ : ℚ
  high : ℚ
  low : ℚ
  close : ℚ
  volume : ℚ
deriving DecidableEq, Repr

structure CandleBuilder where
  current : Option Candle
  prev_volume : Option ℚ
deriving DecidableEq, Repr

/-- `ts = tick["timestamp"] // 1000; bucket = ts - (ts % CANDLE_INTERVAL)`. -/
def bucketOf (t : Tick) : ℤ :=
  let ts := t.timestamp.fdiv 1000
  ts - ts.emod 60

/-- The candle opened on a bucket change:
open = high = low = close = price, volume = 0. -/
def freshCandle (bucket : ℤ) (price : ℚ) : Candle :=
  { timestamp := bucket, open_ := price, high := price, low := price,
    close := price, volume := 0 }

/-- `CandleBuilder.update(tick)`: returns the updated builder and the
finished candle (the method's return value). -/
def CandleBuilder.update (b : CandleBuilder) (tick : Tick) : CandleBuilder × Option Candle :=
  let price := tick.ltp
  let vol := tick.volume
  let bucket := bucketOf tick
  match b.current with
  | none => (⟨some (freshCandle bucket price), some vol⟩, none)
  | some cur =>
    if bucket ≠ cur.timestamp then
      (⟨some (freshCandle bucket price), some vol⟩, some cur)
    else
      let addVol : ℚ := match b.prev_volume with
        | some pv => max 0 (vol - pv)
        | none => 0
      let cur' : Candle :=
        { cur with high := max cur.high price, low := min cur.low price,
                   close := price, volume := cur.volume + addVol }
      (⟨some cur', some vol⟩, none)

/-- Feeding a tick sequence through a builder, collecting every candle
it finishes, in emission order. -/
def runTicks : CandleBuilder → List Tick → CandleBuilder × List Candle
  | b, [] => (b, [])
  | b, t :: ts =>
    let (b', e) := b.update t
    let (b'', rest) := runTicks b' ts
    (b'', e.toList ++ rest)

/-- The spec's candle invariant:
volume ≥ 0, high ≥ max(open, close), low ≤ min(open, close). -/
def CandleInvariant (c : Candle) : Prop :=
  0 ≤ c.volume ∧ max c.open_ c.close ≤ c.high ∧ c.low ≤ min c.open_ c.close

instance (c : Candle) : Decidable (CandleInvariant c) := by
  unfold CandleInvariant; infer_instance

/-! ## CandleAggregator, batch mode
(`calculate_indecator.py` lines 111-120: `df.resample("5T").agg({open:
first, high: max, low: min, close: last, volume: sum}).dropna()`).
One resample group of tick rows; an empty group aggregates to NaN in
every column and is dropped. -/

structure Row where
  open_ : ℚ
  high : ℚ
  low : ℚ
  close : ℚ
  volume : ℚ
deriving DecidableEq, Repr

/-- The per-group aggregation: open = first, high = max, low = min,
close = last, volume = sum. -/
def aggGroup : List Row → Option Row
  | [] => none
  | r :: rs =>
    some { open_ := r.open_,
           high := (rs.map (·.high)).foldl max r.high,
           low := (rs.map (·.low)).foldl min r.low,
           close := ((r :: rs).getLast (by simp)).close,
           volume := ((r :: rs).map (·.volume)).sum }

/-- The candle invariant read on a resampled row. -/
def RowInvariant (r : Row) : Prop :=
  0 ≤ r.volume ∧ max r.open_ r.close ≤ r.high ∧ r.low ≤ min r.open_ r.close

instance (r : Row) : Decidable (RowInvariant r) := by
  unfold RowInvariant; infer_instance

/-! ## IndicatorEngine, streaming update (`indecator.py`)
Config: EMA_FAST = 12, EMA_SLOW = 26, EMA_SIGNAL = 9, RSI_PERIOD = 14,
ATR_PERIOD = 14, VOL_AVG_PERIOD = 20. -/

/-- `ema(prev_ema, price, period)`: `alpha = 2 / (period + 1)`. -/
def ema (prev_ema price : ℚ) (period : ℕ) : ℚ :=
  let alpha : ℚ := 2 / (period + 1)
  price * alpha + prev_ema * (1 - alpha)

/-- `deque(..., maxlen=20).append`: push right, evict the oldest
element beyond capacity 20. -/
def dequeAppend20 (w : List ℚ) (v : ℚ) : List ℚ :=
  let w' := w ++ [v]
  if 20 < w'.length then w'.tail else w'

structure IndicatorState where
  ema_fast : ℚ
  ema_slow : ℚ
  signal : ℚ
  avg_gain : ℚ
  avg_loss : ℚ
  atr : ℚ
  vwap_pv : ℚ
  vwap_vol : ℚ
  vol_window : List ℚ
  prev_close : ℚ
deriving DecidableEq, Repr

structure IndicatorOut where
  close : ℚ
  ema_fast : ℚ
  ema_slow : ℚ
  macd : ℚ
  signal : ℚ
  rsi : ℚ
  atr : ℚ
  vwap : ℚ
  volume_spike : Bool
  lagged_return : ℚ
deriving DecidableEq, Repr

/-- `IndicatorEngine.update(candle)`: one O(1) streaming step.  A zero
denominator the Python code does not guard (`1 + rs`, the VWAP
cumulative volume, `prev_close` in the lagged return) raises
`ZeroDivisionError`, modelled as `none`; the guarded RSI denominator
(`rs = avg_gain / avg_loss if avg_loss else 0`) is the `if` below. -/
def IndicatorEngine.update (s : IndicatorState) (candle : Candle) :
    Option (IndicatorState × IndicatorOut) :=
  let close := candle.close
  let high := candle.high
  let low := candle.low
  let vol := candle.volume
  let ema_fast := ema s.ema_fast close 12
  let ema_slow := ema s.ema_slow close 26
  let macd := ema_fast - ema_slow
  let signal := ema s.signal macd 9
  let change := close - s.prev_close
  let gain := max change 0
  let loss := max (-change) 0
  let avg_gain := (s.avg_gain * (14 - 1) + gain) / 14
  let avg_loss := (s.avg_loss * (14 - 1) + loss) / 14
  let rs := if avg_loss ≠ 0 then avg_gain / avg_loss else 0
  if 1 + rs = 0 then none else
  let rsi := 100 - 100 / (1 + rs)
  let tr := max (high - low) (max |high - s.prev_close| |low - s.prev_close|)
  let atr := (s.atr * (14 - 1) + tr) / 14
  let vwap_pv := s.vwap_pv + close * vol
  let vwap_vol := s.vwap_vol + vol
  if vwap_vol = 0 then none else
  let vwap := vwap_pv / vwap_vol
  let vol_window := dequeAppend20 s.vol_window vol
  let avg_vol := qmean vol_window
  let volume_spike := vol > (3/2) * avg_vol
  if s.prev_close = 0 then none else
  let lagged_return := (close - s.prev_close) / s.prev_close
  some ({ ema_fast := ema_fast, ema_slow := ema_slow, signal := signal,
          avg_gain := avg_gain, avg_loss := avg_loss, atr := atr,
          vwap_pv := vwap_pv, vwap_vol := vwap_vol,
          vol_window := vol_window, prev_close := close },
        { close := close, ema_fast := ema_fast, ema_slow := ema_slow,
          macd := macd, signal := signal, rsi := rsi, atr := atr,
          vwap := vwap, volume_spike := volume_spike,
          lagged_return := lagged_return })

/-! ## IndicatorEngine, bootstrap (`indecator.py`, `IndicatorState.__init__`)

The source reads `df["close"].ewm(span=..., adjust=False).iloc[-1]`
(and likewise for the gain/loss and true-range series).  The pandas
window object returned by `.ewm(...)` has no `iloc` attribute — the
`.mean()` call is missing — so the constructor raises `AttributeError`
on every input, including the module's own demo DataFrame.  The
definitions below model the evidently intended computation
`.ewm(...).mean().iloc[-1]`, i.e. the last element of the
exponentially-weighted mean series. -/

/-- One `adjust=False` EWM step: `y = x * alpha + prev * (1 - alpha)`. -/
def ewmStep (alpha prev x : ℚ) : ℚ := x * alpha + prev * (1 - alpha)

/-- The EWM series continued from a previous value. -/
def ewmSeriesFrom (alpha prev : ℚ) : List ℚ → List ℚ
  | [] => []
  | x :: xs =>
    let y := ewmStep alpha prev x
    y :: ewmSeriesFrom alpha y xs

/-- `series.ewm(alpha, adjust=False).mean()`: seeded with the first
element, then the recursive update. -/
def ewmSeries (alpha : ℚ) : List ℚ → List ℚ
  | [] => []
  | x :: xs => x :: ewmSeriesFrom alpha x xs

/-- The spec's wording of the same quantity: the smoothing recursion
"applied from the oldest candle, seeded only with the first close". -/
def ewmRecFromOldest (alpha seed : ℚ) : List ℚ → ℚ
  | [] => seed
  | x :: xs => ewmRecFromOldest alpha (ewmStep alpha seed x) xs

/-- `df["close"].diff()` without its leading NaN: consecutive
close-to-close differences. -/
def closeDeltas (closes : List ℚ) : List ℚ :=
  List.zipWith (fun cur prev => cur - prev) closes.tail closes

/-- The bootstrap fields the claims concern (ATR, VWAP sums and the
volume window are built from other columns and are not modelled). -/
structure BootstrapState where
  ema_fast : ℚ
  ema_slow : ℚ
  signal : ℚ
  avg_gain : ℚ
  avg_loss : ℚ
  prev_close : ℚ
deriving DecidableEq, Repr

/-- The intended `IndicatorState.__init__` (see the section comment:
the shipped code raises `AttributeError` instead of producing these
values).  `none` models the NaN results on windows too short for a
last EWM value (`iloc[-1]` of an empty or all-NaN series). -/
def bootstrapIntended (closes : List ℚ) : Option BootstrapState := do
  let ema_fast ← (ewmSeries (2/13) closes).getLast?
  let ema_slow ← (ewmSeries (2/27) closes).getLast?
  let deltas := closeDeltas closes
  let gains := deltas.map fun d => max d 0
  let losses := deltas.map fun d => max (-d) 0
  let avg_gain ← (ewmSeries (1/14) gains).getLast?
  let avg_loss ← (ewmSeries (1/14) losses).getLast?
  let prev_close ← closes.getLast?
  some { ema_fast := ema_fast, ema_slow := ema_slow, signal := 0,
         avg_gain := avg_gain, avg_loss := avg_loss, prev_close := prev_close }

/-! ## Batch RSI (`calculate_indecator.py` lines 145-157)
`avg_gain`/`avg_loss` are `rolling(14).mean().iloc[-1]` over the
clipped 5-minute close deltas; with at least 15 closes (the guard at
line 122) the last rolling window contains the final 14 deltas and no
NaN.  `avg_loss == 0` short-circuits to RSI = 100. -/

def batchRsi (closes : List ℚ) : Option ℚ :=
  let deltas := closeDeltas closes
  let gains := deltas.map fun d => max d 0
  let losses := deltas.map fun d => max (-d) 0
  if 14 ≤ deltas.length then
    let avg_gain := qmean (tailN 14 gains)
    let avg_loss := qmean (tailN 14 losses)
    if avg_loss = 0 then some 100
    else some (100 - 100 / (1 + avg_gain / avg_loss))
  else none

/-! ## SignalSynthesizer bullish score
(`live_trend_analyzer.py` lines 249-296).

The block reads the variables computed just above it; they are
collected here in a record.  In the states the pipeline produces:
`market_structure` is `None` (fewer than two 5-minute candles) or one
of the nonempty labels; `ema_20`/`ema_50` are the rounded EMAs, both
set to `0.0` with `ema_signal = "INSUFFICIENT_DATA"` when fewer than
50 candles exist; `rsi` is `None` exactly when
`rsi_signal = "INSUFFICIENT_DATA"`.  Python truthiness tests
(`if market_structure:`, `if ema_20 and ema_50 and ...:`) are modelled
exactly: an empty string and the number 0 are falsy. -/

structure ScoreInputs where
  volume_value_signal : String
  vwap_signal : String
  market_structure : Option String
  ema_20 : ℚ
  ema_50 : ℚ
  ema_signal : String
  rsi : Option ℚ
  rsi_signal : String
deriving DecidableEq, Repr

/-- `if market_structure:` — Python truthiness of `None` or a string. -/
def msCounted (i : ScoreInputs) : Bool :=
  match i.market_structure with
  | none => false
  | some s => s ≠ ""

/-- `if ema_20 and ema_50 and ema_signal != "INSUFFICIENT_DATA":` —
the two floats are tested for truthiness, so an EMA that rounds to
exactly 0.0 drops the indicator from the score. -/
def emaCounted (i : ScoreInputs) : Bool :=
  i.ema_20 ≠ 0 ∧ i.ema_50 ≠ 0 ∧ i.ema_signal ≠ "INSUFFICIENT_DATA"

/-- `if rsi is not None and rsi_signal != "INSUFFICIENT_DATA":`. -/
def rsiCounted (i : ScoreInputs) : Bool :=
  i.rsi.isSome ∧ i.rsi_signal ≠ "INSUFFICIENT_DATA"

/-- `bullish_checks`: the booleans appended for the indicators that
are counted, in order. -/
def bullish_checks (i : ScoreInputs) : List Bool :=
  [decide (i.volume_value_signal = "HIGH_VOLUME_HIGH_VALUE"),
   decide (i.vwap_signal = "PRICE_ABOVE_VWAP")]
  ++ (if msCounted i then [decide (i.market_structure = some "BULLISH_HH_HL")] else [])
  ++ (if emaCounted i then [decide (i.ema_50 < i.ema_20)] else [])
  ++ (if rsiCounted i then [decide (55 ≤ i.rsi.getD 0 ∧ i.rsi.getD 0 ≤ 70)] else [])

/-- `max_possible_score`: 1 for volume/value, 1 for VWAP, plus one per
counted optional indicator. -/
def max_possible_score (i : ScoreInputs) : ℕ :=
  2 + (if msCounted i then 1 else 0) + (if emaCounted i then 1 else 0)
    + (if rsiCounted i then 1 else 0)

/-- `bullish_score = sum(bullish_checks)`. -/
def bullish_score (i : ScoreInputs) : ℕ := (bullish_checks i).count true

/-- `overall_signal`: percentage of the available maximum. -/
def overall_signal (i : ScoreInputs) : String :=
  if max_possible_score i = 0 then "INSUFFICIENT_DATA"
  else
    let percentage : ℚ := (bullish_score i : ℚ) / (max_possible_score i : ℚ) * 100
    if 80 ≤ percentage then "STRONG_BULLISH"
    else if 60 ≤ percentage then "BULLISH"
    else if 40 ≤ percentage then "NEUTRAL"
    else "BEARISH"

/-- The spec's wording of the denominator: "the number of indicators
that were computable given available history" — the two always-on
indicators plus each optional indicator whose availability marker says
it was computed. -/
def computableCount (i : ScoreInputs) : ℕ :=
  2 + (if i.market_structure.isSome then 1 else 0)
    + (if i.ema_signal ≠ "INSUFFICIENT_DATA" then 1 else 0)
    + (if i.rsi_signal ≠ "INSUFFICIENT_DATA" then 1 else 0)

/-- The EMA block of `live_trend_analyzer.py` lines 199-212: with 50 or
more 5-minute candles, the rounded span-20 and span-50 EMAs of the
closes and their crossover signal; otherwise zeros and
`INSUFFICIENT_DATA`. -/
def emaBlock (closes : List ℚ) : ℚ × ℚ × String :=
  if 50 ≤ closes.length then
    match closes with
    | [] => (0, 0, "INSUFFICIENT_DATA")
    | c :: cs =>
      let ema_20 := pyRound2 (ewmRecFromOldest (2/21) c cs)
      let ema_50 := pyRound2 (ewmRecFromOldest (2/51) c cs)
      (ema_20, ema_50, if ema_50 < ema_20 then "EMA20_ABOVE_EMA50" else "EMA20_BELOW_EMA50")
  else (0, 0, "INSUFFICIENT_DATA")

/-! ## Theorems -/

/-- C7: price normalization divides the raw integer by 10,000,000 when
the exchange type is the currency-derivative market (13) and by 100 for
every other exchange type; in particular raw 1000000000 normalizes to
100.0 under type 13 and to 10000000.0 under any other type. -/
theorem normalize_price_divisor (et : ℤ) :
    (∀ v : ℤ, normalize_price (some v) et
      = some (if et = 13 then (v : ℚ) / 10000000 else (v : ℚ) / 100))
    ∧ normalize_price (some 1000000000) et
      = some (if et = 13 then (100 : ℚ) else 10000000) := by
  constructor
  · intro v
    by_cases h : et = 13 <;> simp [normalize_price, h]
  · by_cases h : et = 13 <;> simp [normalize_price, h] <;> norm_num

/-- C6: only numeric-coercible timestamps participate in unit
inference (a non-numeric entry changes nothing); with maximum numeric
value m the unit is ns if m > 10^18, us if m > 10^15, ms if m > 10^12
and s otherwise, and the whole batch is converted with that single
inferred unit. -/
theorem timestamp_unit_inference (raw : List (Option ℚ)) (m : ℚ)
    (h : listMax (raw.filterMap id) = some m) :
    inferUnit raw = some (classifyUnit m)
    ∧ (classifyUnit m = .ns ↔ 10^18 < m)
    ∧ (classifyUnit m = .us ↔ (10^15 < m ∧ m ≤ 10^18))
    ∧ (classifyUnit m = .ms ↔ (10^12 < m ∧ m ≤ 10^15))
    ∧ (classifyUnit m = .s ↔ m ≤ 10^12)
    ∧ convertTimestamps raw
        = some (raw.map (Option.map (fun t => t * unitFactorNs (classifyUnit m))))
    ∧ inferUnit (none :: raw) = inferUnit raw := by
  refine ⟨by simp [inferUnit, h], ?_, ?_, ?_, ?_,
          by simp [convertTimestamps, inferUnit, h], by simp [inferUnit]⟩
  · unfold classifyUnit
    by_cases h1 : 10^18 < m
    · simp [h1]
    · simp only [if_neg h1]
      by_cases h2 : 10^15 < m
      · simp [h2, h1]
      · simp only [if_neg h2]
        by_cases h3 : 10^12 < m <;> simp [h3, h1]
  · unfold classifyUnit
    by_cases h1 : 10^18 < m
    · have h1' : ¬ m ≤ 10^18 := not_le.mpr h1
      simp [h1, h1']
    · have h1' : m ≤ 10^18 := not_lt.mp h1
      simp only [if_neg h1]
      by_cases h2 : 10^15 < m
      · simp [h2, h1']
      · simp only [if_neg h2]
        by_cases h3 : 10^12 < m <;> simp [h3, h2]
  · unfold classifyUnit
    by_cases h1 : 10^18 < m
    · have h1' : ¬ m ≤ 10^15 :=
        not_le.mpr (lt_trans (by norm_num) h1)
      simp [h1, h1']
    · simp only [if_neg h1]
      by_cases h2 : 10^15 < m
      · have h2' : ¬ m ≤ 10^15 := not_le.mpr h2
        simp [h2, h2']
      · have h2' : m ≤ 10^15 := not_lt.mp h2
        simp only [if_neg h2]
        by_cases h3 : 10^12 < m <;> simp [h3, h2']
  · unfold classifyUnit
    by_cases h1 : 10^18 < m
    · have h1' : ¬ m ≤ 10^12 :=
        not_le.mpr (lt_trans (by norm_num) h1)
      simp [h1, h1']
    · simp only [if_neg h1]
      by_cases h2 : 10^15 < m
      · have h2' : ¬ m ≤ 10^12 :=
          not_le.mpr (lt_trans (by norm_num) h2)
        simp [h2, h2']
      · simp only [if_neg h2]
        by_cases h3 : 10^12 < m
        · have h3' : ¬ m ≤ 10^12 := not_le.mpr h3
          simp [h3, h3']
        · simp [h3, not_lt.mp h3]

/-- Witness for C6 at a concrete batch: maximum 2·10^18 classifies as
nanoseconds, a non-numeric entry participating in nothing. -/
theorem timestamp_unit_inference_witness :
    inferUnit [some ((2000000000000000000 : ℚ)), none, some 5]
        = some (classifyUnit (2000000000000000000 : ℚ))
    ∧ classifyUnit (2000000000000000000 : ℚ) = .ns :=
  ⟨(timestamp_unit_inference [some ((2000000000000000000 : ℚ)), none, some 5]
      (2000000000000000000 : ℚ)
      (by simp [listMax]; norm_num [max_def])).1,
   (timestamp_unit_inference [some ((2000000000000000000 : ℚ)), none, some 5]
      (2000000000000000000 : ℚ)
      (by simp [listMax]; norm_num [max_def])).2.1.mpr (by norm_num)⟩

/-- C10: when a tick's bucket differs from the current candle's, the
emitted candle's volume is left unchanged, the newly opened candle has
volume 0, and the previous-cumulative-volume tracker is reset to the
tick's cumulative value — the cumulative increase across the bucket
boundary is counted in neither candle. -/
theorem opening_tick_contributes_no_volume (b : CandleBuilder) (c : Candle) (t : Tick)
    (hc : b.current = some c) (hb : bucketOf t ≠ c.timestamp) :
    ((b.update t).2).map (·.volume) = some c.volume
    ∧ ((b.update t).1).current = some (freshCandle (bucketOf t) t.ltp)
    ∧ (freshCandle (bucketOf t) t.ltp).volume = 0
    ∧ ((b.update t).1).prev_volume = some t.volume := by
  simp [CandleBuilder.update, hc, hb, freshCandle]

/-- Witness for C10: a concrete builder holding the bucket-120 candle
receives a tick in bucket 60. -/
theorem opening_tick_contributes_no_volume_witness :
    ((CandleBuilder.update ⟨some (freshCandle 120 10), some 100⟩ ⟨60000, 11, 110⟩).2).map (·.volume)
        = some (freshCandle 120 10).volume
    ∧ ((CandleBuilder.update ⟨some (freshCandle 120 10), some 100⟩ ⟨60000, 11, 110⟩).1).current
        = some (freshCandle (bucketOf ⟨60000, 11, 110⟩) (11 : ℚ))
    ∧ (freshCandle (bucketOf ⟨60000, 11, 110⟩) (11 : ℚ)).volume = 0
    ∧ ((CandleBuilder.update ⟨some (freshCandle 120 10), some 100⟩ ⟨60000, 11, 110⟩).1).prev_volume
        = some (110 : ℚ) :=
  opening_tick_contributes_no_volume ⟨some (freshCandle 120 10), some 100⟩
    (freshCandle 120 10) ⟨60000, 11, 110⟩ rfl (by decide)

/-- C4 counterexample: from a fresh builder, a tick in bucket 120 then
a tick in the earlier bucket 60: the out-of-order tick is not dropped —
it finishes the current candle and re-opens a candle at bucket 60. -/
theorem older_bucket_tick_not_dropped :
    (runTicks ⟨none, none⟩ [⟨120000, 10, 100⟩, ⟨60000, 11, 110⟩]).1.current
        = some (freshCandle 60 11)
    ∧ (runTicks ⟨none, none⟩ [⟨120000, 10, 100⟩, ⟨60000, 11, 110⟩]).2
        = [freshCandle 120 10]
    ∧ bucketOf ⟨60000, 11, 110⟩ < (freshCandle 120 10).timestamp := by
  decide

/-- C4 amended: a tick whose bucket is earlier than the current
candle's bucket is not dropped and no warning is recorded: the current
candle is emitted exactly as stored (the builder never mutates a candle
after emitting it) and a fresh candle is opened at the out-of-order
tick's bucket. -/
theorem earlier_bucket_tick_reopens (b : CandleBuilder) (c : Candle) (t : Tick)
    (hc : b.current = some c) (hb : bucketOf t < c.timestamp) :
    b.update t = (⟨some (freshCandle (bucketOf t) t.ltp), some t.volume⟩, some c) := by
  have hne : bucketOf t ≠ c.timestamp := ne_of_lt hb
  simp [CandleBuilder.update, hc, hne]

/-- Witness for the amended C4 at the concrete builder and tick of the
counterexample. -/
theorem earlier_bucket_tick_reopens_witness :
    CandleBuilder.update ⟨some (freshCandle 120 10), some 100⟩ ⟨60000, 11, 110⟩
      = (⟨some (freshCandle (bucketOf ⟨60000, 11, 110⟩) (11 : ℚ)), some (110 : ℚ)⟩,
         some (freshCandle 120 10)) :=
  earlier_bucket_tick_reopens ⟨some (freshCandle 120 10), some 100⟩
    (freshCandle 120 10) ⟨60000, 11, 110⟩ rfl (by decide)

/-- C5 amended: the derived per-tick period volume is 0 for the first
tick and max(0, cur − prev) afterwards, so [100,150,140,200] yields
[0,50,0,60]; the intraday batch path consumes these deltas, but
`calculate_volume_value_insights` consumes the raw cumulative counter
(see the counterexample). -/
theorem volume_delta_formula :
    (∀ l : List ℚ, (volumeDelta l).length = l.length)
    ∧ (∀ (v : ℚ) (rest : List ℚ), (volumeDelta (v :: rest)).head? = some 0)
    ∧ (∀ (l : List ℚ) (i : ℕ) (cur prev : ℚ),
        l[i+1]? = some cur → l[i]? = some prev →
        (volumeDelta l)[i+1]? = some (max 0 (cur - prev)))
    ∧ volumeDelta [100, 150, 140, 200] = [0, 50, 0, 60] := by
  refine ⟨?_, ?_, ?_, by norm_num [volumeDelta, max_def]⟩
  · intro l
    cases l with
    | nil => rfl
    | cons v rest => simp [volumeDelta]
  · intro v rest
    simp [volumeDelta]
  · intro l i cur prev hcur hprev
    cases l with
    | nil => simp at hcur
    | cons v rest =>
      simp only [volumeDelta, List.tail_cons, List.getElem?_cons_succ]
      rw [List.getElem?_zipWith]
      simp only [List.getElem?_cons_succ] at hcur
      rw [hcur, hprev]

/-- Witness for C5 at the cumulative sequence [100,150,140,200]. -/
theorem volume_delta_formula_witness :
    (volumeDelta [(100 : ℚ), 150, 140, 200]).head? = some 0
    ∧ (volumeDelta [(100 : ℚ), 150, 140, 200])[3]? = some (max 0 (200 - 140)) :=
  ⟨volume_delta_formula.2.1 100 [150, 140, 200],
   volume_delta_formula.2.2.1 [100, 150, 140, 200] 2 200 140 (by decide) (by decide)⟩

/-- C5 counterexample: with cumulative volumes [100,150,140,200] (unit
average traded price), `calculate_volume_value_insights` reports the
raw cumulative 200 as the latest volume — not the per-tick delta 60. -/
theorem insights_consume_cumulative_volume :
    (calculate_volume_value_insights
        [⟨100, 1, 1⟩, ⟨150, 1, 1⟩, ⟨140, 1, 1⟩, ⟨200, 1, 1⟩]).map (·.volume)
      = some 200
    ∧ (volumeDelta [100, 150, 140, 200]).getLast? = some 60
    ∧ (200 : ℚ) ≠ 60 := by
  refine ⟨rfl, ?_, by norm_num⟩
  norm_num [volumeDelta, max_def]

/-- The seed of a left max-fold is below the result. -/
theorem foldl_max_init_le (l : List ℚ) (a : ℚ) : a ≤ l.foldl max a := by
  induction l generalizing a with
  | nil => exact le_refl a
  | cons x xs ih => exact le_trans (le_max_left a x) (ih (max a x))

/-- Every element of a list is below its left max-fold. -/
theorem le_foldl_max_of_mem {l : List ℚ} {y : ℚ} (h : y ∈ l) (a : ℚ) :
    y ≤ l.foldl max a := by
  induction l generalizing a with
  | nil => cases h
  | cons x xs ih =>
    rcases List.mem_cons.mp h with h | h
    · subst h
      exact le_trans (le_max_right a y) (foldl_max_init_le xs (max a y))
    · exact ih h (max a x)

/-- The seed of a left min-fold is above the result. -/
theorem foldl_min_le_init (l : List ℚ) (a : ℚ) : l.foldl min a ≤ a := by
  induction l generalizing a with
  | nil => exact le_refl a
  | cons x xs ih => exact le_trans (ih (min a x)) (min_le_left a x)

/-- Every element of a list is above its left min-fold. -/
theorem foldl_min_le_of_mem {l : List ℚ} {y : ℚ} (h : y ∈ l) (a : ℚ) :
    l.foldl min a ≤ y := by
  induction l generalizing a with
  | nil => cases h
  | cons x xs ih =>
    rcases List.mem_cons.mp h with h | h
    · subst h
      exact le_trans (foldl_min_le_init xs (min a y)) (min_le_right a y)
    · exact ih h (min a x)

/-- One `CandleBuilder.update` step preserves the candle invariant on
the current candle and establishes it on the emitted one. -/
theorem update_preserves_invariant (b : CandleBuilder) (t : Tick)
    (h : ∀ c, b.current = some c → CandleInvariant c) :
    (∀ c, (b.update t).1.current = some c → CandleInvariant c)
    ∧ (∀ c, (b.update t).2 = some c → CandleInvariant c) := by
  have hfresh : CandleInvariant (freshCandle (bucketOf t) t.ltp) := by
    simp [CandleInvariant, freshCandle]
  unfold CandleBuilder.update
  cases hc : b.current with
  | none =>
    exact ⟨fun c hc' => by simp at hc'; simpa [← hc'] using hfresh,
           fun c hc' => by simp at hc'⟩
  | some cur =>
    have hcur := h cur hc
    obtain ⟨hv, hh, hl⟩ := hcur
    by_cases hb : bucketOf t ≠ cur.timestamp
    · refine ⟨fun c hc' => ?_, fun c hc' => ?_⟩
      · simp [hb] at hc'
        simpa [← hc'] using hfresh
      · simp [hb] at hc'
        subst hc'
        exact ⟨hv, hh, hl⟩
    · refine ⟨fun c hc' => ?_, fun c hc' => ?_⟩
      · simp [hb] at hc'
        subst hc'
        refine ⟨?_, ?_, ?_⟩
        · refine add_nonneg hv ?_
          cases b.prev_volume with
          | none => simp
          | some pv => simp [le_max_left]
        · simp only [max_le_iff]
          constructor
          · exact le_trans (le_trans (le_max_left _ _) hh) (le_max_left _ _)
          · exact le_max_right _ _
        · simp only [le_min_iff]
          constructor
          · exact le_trans (min_le_left _ _) (le_trans hl (min_le_left _ _))
          · exact min_le_right _ _
      · simp [hb] at hc'

/-- Every candle the live bucketer finishes, along any tick sequence
from a fresh builder state, satisfies the candle invariant. -/
theorem runTicks_invariant (ts : List Tick) (b : CandleBuilder)
    (h : ∀ c, b.current = some c → CandleInvariant c) :
    ∀ c ∈ (runTicks b ts).2, CandleInvariant c := by
  induction ts generalizing b with
  | nil => simp [runTicks]
  | cons t ts ih =>
    intro c hc
    simp only [runTicks] at hc
    rcases List.mem_append.mp hc with hc | hc
    · exact (update_preserves_invariant b t h).2 c (by
        cases he : (b.update t).2 <;> simp [he] at hc
        simp [hc])
    · exact ih (b.update t).1 (update_preserves_invariant b t h).1 c hc

/-- C8 amended: every candle finished by the live tick bucketer
satisfies high ≥ max(open, close), low ≤ min(open, close) and
volume ≥ 0; a batch-resampled candle satisfies the same invariant
provided every tick row in its group does (the resample aggregates the
feed's raw session OHLC columns, which are never validated — see the
counterexample). -/
theorem candle_invariant_spec :
    (∀ (ticks : List Tick) (c : Candle),
        c ∈ (runTicks ⟨none, none⟩ ticks).2 → CandleInvariant c)
    ∧ (∀ (g : List Row) (r : Row),
        (∀ x ∈ g, RowInvariant x) → aggGroup g = some r → RowInvariant r) := by
  constructor
  · intro ticks c hc
    exact runTicks_invariant ticks ⟨none, none⟩ (by intro c' hc'; simp at hc') c hc
  · intro g r hall hagg
    cases g with
    | nil => simp [aggGroup] at hagg
    | cons r0 rs =>
      simp only [aggGroup, Option.some.injEq] at hagg
      subst hagg
      obtain ⟨h0v, h0h, h0l⟩ := hall r0 (List.mem_cons_self r0 rs)
      have hlastmem : (r0 :: rs).getLast (by simp) ∈ r0 :: rs := List.getLast_mem _
      obtain ⟨hLv, hLh, hLl⟩ := hall _ hlastmem
      have hhigh : ((r0 :: rs).getLast (by simp)).high ≤ (rs.map (·.high)).foldl max r0.high := by
        rcases List.mem_cons.mp hlastmem with hm | hm
        · rw [hm]
          exact foldl_max_init_le _ _
        · exact le_foldl_max_of_mem (List.mem_map_of_mem (·.high) hm) _
      have hlow : (rs.map (·.low)).foldl min r0.low ≤ ((r0 :: rs).getLast (by simp)).low := by
        rcases List.mem_cons.mp hlastmem with hm | hm
        · rw [hm]
          exact foldl_min_le_init _ _
        · exact foldl_min_le_of_mem (List.mem_map_of_mem (·.low) hm) _
      refine ⟨?_, ?_, ?_⟩
      · apply List.sum_nonneg
        intro x hx
        simp only [List.mem_map] at hx
        obtain ⟨y, hy, hxy⟩ := hx
        exact hxy ▸ (hall y hy).1
      · simp only [max_le_iff]
        constructor
        · exact le_trans (le_trans (le_max_left _ _) h0h) (foldl_max_init_le _ _)
        · exact le_trans (le_trans (le_max_right _ _) hLh) hhigh
      · simp only [le_min_iff]
        constructor
        · exact le_trans (foldl_min_le_init _ _) (le_trans h0l (min_le_left _ _))
        · exact le_trans hlow (le_trans hLl (min_le_right _ _))

/-- C8 counterexample: a resample group consisting of one feed row with
open 10, high 5, low 1, close 3 aggregates to a candle that violates
high ≥ max(open, close) — the batch path enforces no row sanity. -/
theorem resampled_candle_violates_invariant :
    aggGroup [⟨10, 5, 1, 3, 0⟩] = some ⟨10, 5, 1, 3, 0⟩
    ∧ ¬ RowInvariant ⟨10, 5, 1, 3, 0⟩ := by
  constructor
  · simp [aggGroup]
  · intro h
    obtain ⟨-, hh, -⟩ := h
    rw [max_le_iff] at hh
    exact absurd hh.1 (by norm_num)

/-- Witness for C8 at a concrete tick run and a concrete sane group. -/
theorem candle_invariant_spec_witness :
    CandleInvariant (freshCandle 120 10) ∧ RowInvariant ⟨1, 2, 0, 1, 5⟩ :=
  ⟨candle_invariant_spec.1 [⟨120000, 10, 100⟩, ⟨180000, 11, 110⟩]
      (freshCandle 120 10) (by decide),
   candle_invariant_spec.2 [⟨1, 2, 0, 1, 5⟩] ⟨1, 2, 0, 1, 5⟩
      (by intro x hx; simp at hx; subst hx; exact ⟨by norm_num, by norm_num [max_def], by norm_num [min_def]⟩)
      (by simp [aggGroup])⟩

/-- C1 (code evaluation): when the smoothed average loss is exactly 0,
the batch computation yields RSI = 100 exactly, but the streaming
`IndicatorEngine.update` — `rs = avg_gain / avg_loss if avg_loss else
0` — yields rs = 0 and hence RSI = 0; neither path divides by zero. -/
theorem streaming_rsi_zero_on_zero_avg_loss :
    (IndicatorEngine.update
        { ema_fast := 100, ema_slow := 100, signal := 0, avg_gain := 1,
          avg_loss := 0, atr := 1, vwap_pv := 100, vwap_vol := 1,
          vol_window := [1], prev_close := 100 }
        { timestamp := 0, open_ := 100, high := 101, low := 100, close := 101,
          volume := 1 }).map (fun p => (p.1.avg_loss, p.2.rsi))
      = some (0, 0)
    ∧ batchRsi [100, 101, 102, 103, 104, 105, 106, 107, 108,
                109, 110, 111, 112, 113, 114, 115] = some 100 := by
  constructor
  · norm_num [IndicatorEngine.update, ema, max_def]
  · norm_num [batchRsi, closeDeltas, tailN, qmean, max_def]

/-- The last element of the `adjust=False` EWM mean series equals the
smoothing recursion folded from the oldest element. -/
theorem ewmSeries_getLast (alpha x : ℚ) (xs : List ℚ) :
    (ewmSeries alpha (x :: xs)).getLast? = some (ewmRecFromOldest alpha x xs) := by
  induction xs generalizing x with
  | nil => rfl
  | cons y ys ih =>
    show (x :: ewmSeriesFrom alpha x (y :: ys)).getLast? = _
    have h1 : ewmSeriesFrom alpha x (y :: ys)
        = ewmStep alpha x y :: ewmSeriesFrom alpha (ewmStep alpha x y) ys := rfl
    rw [h1, List.getLast?_cons_cons]
    exact ih (ewmStep alpha x y)

/-- C2 (intended bootstrap): on any window of at least two closes the
intended `IndicatorState.__init__` yields emaFast/emaSlow equal to the
span-12/span-26 smoothing recursions (alpha 2/13 and 2/27) seeded with
the first close, macdSignal = 0, and avgGain/avgLoss equal to the final
Wilder-smoothed (alpha 1/14) values of the clipped gain and loss series
of close-to-close deltas.  (The shipped constructor instead raises
`AttributeError`: `.mean()` is missing before `.iloc[-1]`.) -/
theorem bootstrap_intended_spec (c1 c2 : ℚ) (rest : List ℚ) :
    bootstrapIntended (c1 :: c2 :: rest) = some
      { ema_fast := ewmRecFromOldest (2/13) c1 (c2 :: rest),
        ema_slow := ewmRecFromOldest (2/27) c1 (c2 :: rest),
        signal := 0,
        avg_gain := ewmRecFromOldest (1/14) (max (c2 - c1) 0)
            ((closeDeltas (c2 :: rest)).map fun d => max d 0),
        avg_loss := ewmRecFromOldest (1/14) (max (-(c2 - c1)) 0)
            ((closeDeltas (c2 :: rest)).map fun d => max (-d) 0),
        prev_close := (c2 :: rest).getLast (by simp) } := by
  have hdelta : closeDeltas (c1 :: c2 :: rest) = (c2 - c1) :: closeDeltas (c2 :: rest) := rfl
  have hlast : (c1 :: c2 :: rest).getLast? = some ((c2 :: rest).getLast (by simp)) := by
    rw [List.getLast?_cons_cons, List.getLast?_eq_getLast_of_ne_nil]
  simp [bootstrapIntended, hdelta, List.map_cons, ewmSeries_getLast, hlast]

/-- A constant series is a fixed point of the EWM recursion. -/
theorem ewmRec_const (alpha c : ℚ) (n : ℕ) :
    ewmRecFromOldest alpha c (List.replicate n c) = c := by
  induction n with
  | zero => rfl
  | succ n ih =>
    show ewmRecFromOldest alpha (ewmStep alpha c c) (List.replicate n c) = c
    have hstep : ewmStep alpha c c = c := by unfold ewmStep; ring
    rw [hstep]
    exact ih

/-- Rounding 0.001 to two decimal places gives exactly 0. -/
theorem pyRound2_milli : pyRound2 (1/1000) = 0 := by
  have hf : ⌊((1 : ℚ)/1000 * 100)⌋ = 0 := by
    rw [Int.floor_eq_zero_iff]
    constructor <;> norm_num
  norm_num [pyRound2, roundHalfEven, hf]

/-- With 50 five-minute closes all equal to 0.001, the EMA block is
computed (50-candle history available) yet both rounded EMAs are
exactly 0.0 and the signal is `EMA20_BELOW_EMA50`. -/
theorem emaBlock_underflow :
    emaBlock (List.replicate 50 (1/1000)) = (0, 0, "EMA20_BELOW_EMA50") := by
  have hrep : List.replicate 50 ((1 : ℚ)/1000) = (1/1000) :: List.replicate 49 (1/1000) := rfl
  rw [emaBlock.eq_def, if_pos (by simp), hrep]
  show (pyRound2 (ewmRecFromOldest (2/21) (1/1000) (List.replicate 49 (1/1000))),
        pyRound2 (ewmRecFromOldest (2/51) (1/1000) (List.replicate 49 (1/1000))),
        _) = _
  rw [ewmRec_const, ewmRec_const, pyRound2_milli]
  norm_num

/-- C9 counterexample: a reachable analysis state (50 candles of close
0.001, see `emaBlock_underflow`) where all five indicators were
computable but the score denominator is 4: the truthiness test
`if ema_20 and ema_50 and ...` drops the computed EMA indicator because
its rounded value is 0.0. -/
theorem score_denominator_undercounts :
    emaBlock (List.replicate 50 (1/1000)) = (0, 0, "EMA20_BELOW_EMA50")
    ∧ max_possible_score
        { volume_value_signal := "NEUTRAL", vwap_signal := "PRICE_BELOW_VWAP",
          market_structure := some "NOT_BULLISH", ema_20 := 0, ema_50 := 0,
          ema_signal := "EMA20_BELOW_EMA50", rsi := some 100,
          rsi_signal := "RSI_OVERBOUGHT" } = 4
    ∧ computableCount
        { volume_value_signal := "NEUTRAL", vwap_signal := "PRICE_BELOW_VWAP",
          market_structure := some "NOT_BULLISH", ema_20 := 0, ema_50 := 0,
          ema_signal := "EMA20_BELOW_EMA50", rsi := some 100,
          rsi_signal := "RSI_OVERBOUGHT" } = 5 :=
  ⟨emaBlock_underflow, by decide, by decide⟩

/-- C9 amended: the bullish score counts the indicators in their
bullish label; the denominator counts volume/value and VWAP always,
market structure when set, RSI when available, and EMA when available
and neither rounded EMA equals 0 (Python truthiness); it always lies
between 2 and 5; the overall label is STRONG_BULLISH at ≥ 80% of the
denominator, BULLISH at ≥ 60%, NEUTRAL at ≥ 40%, else BEARISH. -/
theorem bullish_score_spec (i : ScoreInputs) :
    2 ≤ max_possible_score i
    ∧ max_possible_score i ≤ 5
    ∧ bullish_score i ≤ max_possible_score i
    ∧ bullish_score i
        = (if i.volume_value_signal = "HIGH_VOLUME_HIGH_VALUE" then 1 else 0)
          + (if i.vwap_signal = "PRICE_ABOVE_VWAP" then 1 else 0)
          + (if msCounted i ∧ i.market_structure = some "BULLISH_HH_HL" then 1 else 0)
          + (if emaCounted i ∧ i.ema_50 < i.ema_20 then 1 else 0)
          + (if rsiCounted i ∧ (55 ≤ i.rsi.getD 0 ∧ i.rsi.getD 0 ≤ 70) then 1 else 0)
    ∧ overall_signal i
        = (if 80 ≤ (bullish_score i : ℚ) / (max_possible_score i : ℚ) * 100
             then "STRONG_BULLISH"
           else if 60 ≤ (bullish_score i : ℚ) / (max_possible_score i : ℚ) * 100
             then "BULLISH"
           else if 40 ≤ (bullish_score i : ℚ) / (max_possible_score i : ℚ) * 100
             then "NEUTRAL"
           else "BEARISH") := by
  have h2 : 2 ≤ max_possible_score i := by
    unfold max_possible_score
    split_ifs <;> omega
  have h5 : max_possible_score i ≤ 5 := by
    unfold max_possible_score
    split_ifs <;> omega
  have hne : max_possible_score i ≠ 0 := by omega
  refine ⟨h2, h5, ?_, ?_, ?_⟩
  · unfold bullish_score bullish_checks max_possible_score
    by_cases hm : msCounted i <;> by_cases he : emaCounted i <;>
      by_cases hr : rsiCounted i <;>
      simp [hm, he, hr, List.count_cons, List.count_append] <;>
      split_ifs <;> omega
  · unfold bullish_score bullish_checks
    by_cases hm : msCounted i <;> by_cases he : emaCounted i <;>
      by_cases hr : rsiCounted i <;>
      simp [hm, he, hr, List.count_cons, List.count_append] <;>
      split_ifs <;> omega
  · unfold overall_signal
    rw [if_neg hne]

/-- A successful `readBytes` pins the bytes read, the advanced cursor,
and the length bound that made it succeed. -/
theorem readBytes_eq_some {n : ℕ} {r r' : Reader} {bs : List ℕ}
    (h : readBytes n r = some (bs, r')) :
    bs = (r.data.drop r.offset).take n
    ∧ r' = ⟨r.data, r.offset + n⟩ ∧ r.offset + n ≤ r.data.length := by
  unfold readBytes at h
  by_cases hle : r.offset + n ≤ r.data.length
  · rw [if_pos hle] at h
    simp only [Option.some.injEq, Prod.mk.injEq] at h
    exact ⟨h.1.symm, h.2.symm, hle⟩
  · rw [if_neg hle] at h
    exact absurd h (by simp)

/-- A successful fixed-width integer read: value, cursor and length. -/
theorem readIntLE_eq_some {n bits : ℕ} {r r' : Reader} {v : ℤ}
    (h : readIntLE n bits r = some (v, r')) :
    v = toSigned bits (leNat ((r.data.drop r.offset).take n))
    ∧ r' = ⟨r.data, r.offset + n⟩ ∧ r.offset + n ≤ r.data.length := by
  unfold readIntLE at h
  cases hb : readBytes n r with
  | none => rw [hb] at h; exact absurd h (by simp)
  | some p =>
    obtain ⟨bs, r''⟩ := p
    rw [hb] at h
    simp only [Option.some.injEq, Prod.mk.injEq] at h
    obtain ⟨hbs, hr, hlen⟩ := readBytes_eq_some hb
    exact ⟨h.1.symm.trans (by rw [hbs]), h.2 ▸ hr, hlen⟩

/-- A successful raw-double read: cursor and length. -/
theorem read_double_eq_some {r r' : Reader} {v : ℕ}
    (h : read_double r = some (v, r')) :
    r' = ⟨r.data, r.offset + 8⟩ ∧ r.offset + 8 ≤ r.data.length := by
  unfold read_double at h
  cases hb : readBytes 8 r with
  | none => rw [hb] at h; exact absurd h (by simp)
  | some p =>
    obtain ⟨bs, r''⟩ := p
    rw [hb] at h
    simp only [Option.some.injEq, Prod.mk.injEq] at h
    obtain ⟨-, hr, hlen⟩ := readBytes_eq_some hb
    exact ⟨h.2 ▸ hr, hlen⟩

/-- A successful depth-block parse advances the cursor by 20 bytes per
entry and never changes the underlying buffer. -/
theorem parse_best_five_eq_some (et : ℤ) :
    ∀ (n : ℕ) (r : Reader) (out : List DepthEntry) (r' : Reader),
      parse_best_five et n r = some (out, r') →
      r'.data = r.data ∧ r'.offset = r.offset + 20 * n := by
  intro n
  induction n with
  | zero =>
    intro r out r' h
    simp only [parse_best_five, Option.some.injEq, Prod.mk.injEq] at h
    rw [← h.2]
    exact ⟨rfl, by omega⟩
  | succ n ih =>
    intro r out r' h
    simp only [parse_best_five, read_int16, read_int64, Option.bind_eq_bind',
      Option.bind_eq_some, Option.pure_def, Option.some.injEq, Prod.mk.injEq] at h
    obtain ⟨⟨v1, r1⟩, h1, h⟩ := h
    dsimp only at h
    obtain ⟨⟨v2, r2⟩, h2, h⟩ := h
    dsimp only at h
    obtain ⟨⟨v3, r3⟩, h3, h⟩ := h
    dsimp only at h
    obtain ⟨⟨v4, r4⟩, h4, h⟩ := h
    dsimp only at h
    obtain ⟨⟨rest, r5⟩, h5, h⟩ := h
    dsimp only at h
    obtain ⟨-, hr'⟩ := h
    obtain ⟨-, e1, -⟩ := readIntLE_eq_some h1
    subst e1
    obtain ⟨-, e2, -⟩ := readIntLE_eq_some h2
    subst e2
    obtain ⟨-, e3, -⟩ := readIntLE_eq_some h3
    subst e3
    obtain ⟨-, e4, -⟩ := readIntLE_eq_some h4
    subst e4
    obtain ⟨d5, o5⟩ := ih _ rest r5 h5
    subst hr'
    dsimp only at d5 o5
    exact ⟨d5, by omega⟩

/-- A successful quote-tier parse consumes exactly 72 bytes. -/
theorem parseQuote_eq_some {et : ℤ} {r r' : Reader} {q : QuoteFields}
    (h : parseQuote et r = some (q, r')) :
    r' = ⟨r.data, r.offset + 72⟩ ∧ r.offset + 72 ≤ r.data.length := by
  simp only [parseQuote, read_int64, Option.bind_eq_bind', Option.bind_eq_some,
    Option.some.injEq, Prod.mk.injEq] at h
  obtain ⟨⟨v1, r1⟩, h1, h⟩ := h
  dsimp only at h
  obtain ⟨⟨v2, r2⟩, h2, h⟩ := h
  dsimp only at h
  obtain ⟨⟨v3, r3⟩, h3, h⟩ := h
  dsimp only at h
  obtain ⟨⟨v4, r4⟩, h4, h⟩ := h
  dsimp only at h
  obtain ⟨⟨v5, r5⟩, h5, h⟩ := h
  dsimp only at h
  obtain ⟨⟨v6, r6⟩, h6, h⟩ := h
  dsimp only at h
  obtain ⟨⟨v7, r7⟩, h7, h⟩ := h
  dsimp only at h
  obtain ⟨⟨v8, r8⟩, h8, h⟩ := h
  dsimp only at h
  obtain ⟨⟨v9, r9⟩, h9, h⟩ := h
  dsimp only at h
  obtain ⟨-, hr'⟩ := h
  obtain ⟨-, e1, -⟩ := readIntLE_eq_some h1
  subst e1
  obtain ⟨-, e2, -⟩ := readIntLE_eq_some h2
  subst e2
  obtain ⟨-, e3, -⟩ := readIntLE_eq_some h3
  subst e3
  obtain ⟨e4, -⟩ := read_double_eq_some h4
  subst e4
  obtain ⟨e5, -⟩ := read_double_eq_some h5
  subst e5
  obtain ⟨-, e6, -⟩ := readIntLE_eq_some h6
  subst e6
  obtain ⟨-, e7, -⟩ := readIntLE_eq_some h7
  subst e7
  obtain ⟨-, e8, -⟩ := readIntLE_eq_some h8
  subst e8
  obtain ⟨-, e9, l9⟩ := readIntLE_eq_some h9
  subst e9
  subst hr'
  dsimp only at l9 ⊢
  exact ⟨by rw [Reader.mk.injEq]; exact ⟨rfl, by omega⟩, by omega⟩

/-- A successful snap-quote-tier parse consumes exactly 256 bytes. -/
theorem parseSnap_eq_some {et : ℤ} {r r' : Reader} {s : SnapFields}
    (h : parseSnap et r = some (s, r')) :
    r'.data = r.data ∧ r'.offset = r.offset + 256 ∧ r.offset + 256 ≤ r.data.length := by
  simp only [parseSnap, read_int64, Option.bind_eq_bind', Option.bind_eq_some,
    Option.some.injEq, Prod.mk.injEq] at h
  obtain ⟨⟨v1, r1⟩, h1, h⟩ := h
  dsimp only at h
  obtain ⟨⟨v2, r2⟩, h2, h⟩ := h
  dsimp only at h
  obtain ⟨⟨v3, r3⟩, h3, h⟩ := h
  dsimp only at h
  obtain ⟨⟨bf, r4⟩, h4, h⟩ := h
  dsimp only at h
  obtain ⟨⟨v5, r5⟩, h5, h⟩ := h
  dsimp only at h
  obtain ⟨⟨v6, r6⟩, h6, h⟩ := h
  dsimp only at h
  obtain ⟨⟨v7, r7⟩, h7, h⟩ := h
  dsimp only at h
  obtain ⟨⟨v8, r8⟩, h8, h⟩ := h
  dsimp only at h
  obtain ⟨-, hr'⟩ := h
  obtain ⟨-, e1, -⟩ := readIntLE_eq_some h1
  subst e1
  obtain ⟨-, e2, -⟩ := readIntLE_eq_some h2
  subst e2
  obtain ⟨e3, -⟩ := read_double_eq_some h3
  subst e3
  obtain ⟨d4, o4⟩ := parse_best_five_eq_some et 10 _ bf r4 h4
  dsimp only at d4 o4
  obtain ⟨-, e5, -⟩ := readIntLE_eq_some h5
  subst e5
  obtain ⟨-, e6, -⟩ := readIntLE_eq_some h6
  subst e6
  obtain ⟨-, e7, -⟩ := readIntLE_eq_some h7
  subst e7
  obtain ⟨-, e8, l8⟩ := readIntLE_eq_some h8
  subst e8
  subst hr'
  dsimp only at l8 ⊢
  have hdl : r4.data.length = r.data.length := by rw [d4]
  exact ⟨d4, by omega, by omega⟩

/-- A successful mode dispatch needs nothing past the header for mode
1, 72 more bytes for mode 2, and 328 more bytes for every other mode. -/
theorem parseAfterHeader_eq_some {mode et : ℤ} {hd out : MarketData} {r : Reader}
    (h : parseAfterHeader mode et hd r = some out) :
    mode = 1
    ∨ (mode ≠ 1 ∧ mode = 2 ∧ r.offset + 72 ≤ r.data.length)
    ∨ (mode ≠ 1 ∧ mode ≠ 2 ∧ r.offset + 328 ≤ r.data.length) := by
  unfold parseAfterHeader at h
  split at h
  · rename_i hm1
    exact Or.inl hm1
  · rename_i hm1
    simp only [Option.bind_eq_bind', Option.bind_eq_some, Option.some.injEq] at h
    obtain ⟨⟨q, rq⟩, hq, h⟩ := h
    dsimp only at h
    obtain ⟨eq_, lq⟩ := parseQuote_eq_some hq
    subst eq_
    split at h
    · rename_i hm2
      exact Or.inr (Or.inl ⟨hm1, hm2, lq⟩)
    · rename_i hm2
      simp only [Option.bind_eq_bind', Option.bind_eq_some, Option.some.injEq] at h
      obtain ⟨⟨sq, rs⟩, hs, -⟩ := h
      obtain ⟨-, -, ls⟩ := parseSnap_eq_some hs
      dsimp only at ls
      exact Or.inr (Or.inr ⟨hm1, hm2, by omega⟩)

/-- A successful `parse_market_data` needs at least as many bytes as
the fixed-width reads of its subscription mode consume. -/
theorem parse_some_length {data : List ℕ} {out : MarketData}
    (h : parse_market_data data = some out) :
    requiredLen (modeByte data) ≤ data.length := by
  simp only [parse_market_data, read_int8, read_int32, read_int64, read_string,
    Reader.skip, Option.bind_eq_bind', Option.bind_eq_some, Option.pure_def,
    Option.some.injEq] at h
  obtain ⟨⟨mode, r1⟩, h1, h⟩ := h
  dsimp only at h
  obtain ⟨⟨et, r2⟩, h2, h⟩ := h
  dsimp only at h
  obtain ⟨hv1, e1, -⟩ := readIntLE_eq_some h1
  subst e1
  obtain ⟨-, e2, -⟩ := readIntLE_eq_some h2
  subst e2
  dsimp only at h
  have hmB : modeByte data = mode := by
    rw [hv1]
    simp [modeByte]
  obtain ⟨⟨seqn, r4⟩, h4, h⟩ := h
  dsimp only at h
  obtain ⟨⟨ets, r5⟩, h5, h⟩ := h
  dsimp only at h
  obtain ⟨⟨rawltp, r6⟩, h6, h⟩ := h
  dsimp only at h
  obtain ⟨-, e4, -⟩ := readIntLE_eq_some h4
  subst e4
  obtain ⟨-, e5, -⟩ := readIntLE_eq_some h5
  subst e5
  obtain ⟨-, e6, l6⟩ := readIntLE_eq_some h6
  subst e6
  dsimp only at l6 h
  rw [hmB]
  rcases parseAfterHeader_eq_some h with hm | ⟨hm1, hm2, lq⟩ | ⟨hm1, hm2, ls⟩
  · rw [hm]
    have h47 : requiredLen 1 = 47 := rfl
    rw [h47]
    omega
  · rw [hm2]
    have h123 : requiredLen 2 = 123 := rfl
    rw [h123]
    dsimp only at lq
    omega
  · rw [requiredLen, if_neg hm1, if_neg hm2]
    dsimp only at ls
    omega

/-- C3 amended: a buffer shorter than its subscription mode requires
fails to decode, and `on_message` confines the failure to that single
frame; an unrecognized mode value is not rejected, however — it is
parsed with the full snap-quote layout (see the counterexample). -/
theorem short_buffer_decode_fails (data : List ℕ)
    (h : data.length < requiredLen (modeByte data)) :
    parse_market_data data = none ∧ on_message (some data) = .parseError := by
  have hnone : parse_market_data data = none := by
    cases hp : parse_market_data data with
    | none => rfl
    | some out => exact absurd (parse_some_length hp) (by omega)
  exact ⟨hnone, by simp [on_message, hnone]⟩

/-- Witness for C3 at a one-byte frame in LTP mode (needs 47 bytes). -/
theorem short_buffer_decode_fails_witness :
    parse_market_data [1] = none ∧ on_message (some [1]) = .parseError :=
  short_buffer_decode_fails [1] (by decide)

set_option maxRecDepth 100000 in
/-- C3 counterexample: a 379-byte frame whose subscription-mode byte is
4 — not one of the recognized modes (1 = LTP, 2 = QUOTE,
3 = SNAPQUOTE) — decodes successfully to a record with mode 4 instead
of producing a decode failure. -/
theorem unknown_mode_decodes :
    (parse_market_data (4 :: 1 :: List.replicate 377 0)).map (·.subscription_mode)
      = some 4 := by
  decide

end Finprobe
